import Mathlib

/-!
Verification of the MTF-checklist trading tool: a shallow embedding of the
validation, recommendation, reducer, storage and calculator code, with
theorems settling the specification claims.

Embedding conventions:
* JavaScript numbers are modelled as `JSNum` (NaN, ±Infinity, or an exact
  rational).  Exact rationals stand in for IEEE doubles; every concrete
  value appearing in a theorem is exactly representable, so no rounding
  behaviour is relied upon.
* JavaScript objects become Lean structures; string enumerations become
  inductive types together with their JS string image where truthiness of
  the string matters.
* `localStorage` is modelled as an `Option` of the (single) stored entry,
  with an oracle describing whether a `setItem` call throws.
-/

namespace VqmTradingTool

/-- Model of a JavaScript number: NaN, +Infinity, -Infinity, or a finite
value (idealised as an exact rational). -/
inductive JSNum where
  | nan
  | posInf
  | negInf
  | fin (q : ℚ)
deriving DecidableEq

/-- JS `isNaN` on a number. -/
def JSNum.isNaN : JSNum → Bool
  | .nan => true
  | _ => false

/-- JS `isFinite` on a number. -/
def JSNum.isFinite : JSNum → Bool
  | .fin _ => true
  | _ => false

/-- The rational payload of a finite JS number (0 for the non-finite
values, which every use below guards against first, as the source does). -/
def JSNum.toRat : JSNum → ℚ
  | .fin q => q
  | _ => 0

/-- JS `>=` comparison between two numbers (false whenever either side is
NaN). -/
def JSNum.geq : JSNum → JSNum → Bool
  | .nan, _ => false
  | _, .nan => false
  | .posInf, _ => true
  | .negInf, .negInf => true
  | .negInf, _ => false
  | .fin _, .posInf => false
  | .fin _, .negInf => true
  | .fin a, .fin b => decide (b ≤ a)

/-- Numeric value of a decimal digit character. -/
def digitVal (c : Char) : ℕ := c.toNat - ('0').toNat

/-- Consume a run of decimal digits, extending the accumulator `acc` and
digit count `n`; returns (value, number of digits read, rest). -/
def parseDigits : List Char → ℕ → ℕ → ℕ × ℕ × List Char
  | [], acc, n => (acc, n, [])
  | c :: cs, acc, n =>
    if c.isDigit then parseDigits cs (10 * acc + digitVal c) (n + 1)
    else (acc, n, c :: cs)

/-- Skip the leading whitespace that `parseFloat` ignores. -/
def skipWs : List Char → List Char
  | [] => []
  | c :: cs =>
    if c == ' ' || c == '\t' || c == '\n' || c == '\r' then skipWs cs
    else c :: cs

/-- Consume an optional sign; returns (isNegative, rest). -/
def parseSign : List Char → Bool × List Char
  | '-' :: cs => (true, cs)
  | '+' :: cs => (false, cs)
  | cs => (false, cs)

/-- Does the input start with the literal `Infinity`? -/
def startsWithInfinity (cs : List Char) : Bool :=
  cs.take 8 == ['I', 'n', 'f', 'i', 'n', 'i', 't', 'y']

/-- Parse the optional exponent part `e`/`E` sign digits of a decimal
literal; an exponent marker not followed by a digit is ignored, as
`parseFloat` only consumes the longest valid literal prefix. -/
def parseExponent (cs : List Char) : ℤ :=
  match cs with
  | [] => 0
  | c :: rest =>
    if c == 'e' || c == 'E' then
      let (neg, rest2) := parseSign rest
      let (v, n, _) := parseDigits rest2 0 0
      if n == 0 then 0 else if neg then -(v : ℤ) else (v : ℤ)
    else 0

/-- Model of JS `parseFloat`: skip leading whitespace, read an optional
sign, then either `Infinity` or the longest decimal-literal prefix
(integer digits, optional fraction, optional exponent); anything that
yields no digits parses to NaN.  The decimal value is taken exactly (as a
rational) rather than rounded to a double. -/
def parseFloat (s : String) : JSNum :=
  let cs := skipWs s.toList
  let (neg, cs1) := parseSign cs
  if startsWithInfinity cs1 then
    if neg then .negInf else .posInf
  else
    let (ip, ni, cs2) := parseDigits cs1 0 0
    let (fp, nf, cs3) :=
      match cs2 with
      | '.' :: rest => parseDigits rest 0 0
      | _ => (0, 0, cs2)
    if ni + nf == 0 then .nan
    else
      let e := parseExponent cs3
      let base : ℚ := (ip : ℚ) + (fp : ℚ) / ((10 : ℚ) ^ nf)
      let mag : ℚ :=
        if 0 ≤ e then base * (10 : ℚ) ^ e.toNat
        else base / (10 : ℚ) ^ (-e).toNat
      .fin (if neg then -mag else mag)

/-- `shouldAutoCheckRR(rrRatio, minRatio)` from checklistValidation.js:
`const ratio = parseFloat(rrRatio); return !isNaN(ratio) && ratio >= minRatio;`
The minimum ratio is a plain (finite) number in every call site. -/
def shouldAutoCheckRR (rrRatio : String) (minRatio : ℚ) : Bool :=
  !(parseFloat rrRatio).isNaN && (parseFloat rrRatio).geq (.fin minRatio)

/-! ## Timeframe configuration (TimeframeConfig.js) -/

/-- One timeframe descriptor (display name and rule-lookup code). -/
structure TfDescriptor where
  name : String
  code : String
deriving DecidableEq

/-- One trading-style configuration from `TIMEFRAME_CONFIGS`. -/
structure TimeframeConfig where
  id : String
  label : String
  higher : TfDescriptor
  mid : TfDescriptor
  lower : TfDescriptor
  holdTime : String
  tradesPerWeek : String
  riskPerTrade : ℚ
  riskConsolidation : ℚ
  icon : String
  description : String
deriving DecidableEq

/-- The `day` entry of `TIMEFRAME_CONFIGS`. -/
def dayConfig : TimeframeConfig :=
  { id := "day", label := "Day Trader"
    higher := ⟨"Daily", "daily"⟩, mid := ⟨"1-Hour", "1hour"⟩
    lower := ⟨"15-Minute", "15min"⟩
    holdTime := "Minutes to Hours", tradesPerWeek := "5-20"
    riskPerTrade := 1, riskConsolidation := 1/2
    icon := "📊"
    description := "Fast-paced intraday trading. Multiple trades per day. Hold time: minutes to hours." }

/-- The `swing` entry of `TIMEFRAME_CONFIGS`. -/
def swingConfig : TimeframeConfig :=
  { id := "swing", label := "Swing Trader"
    higher := ⟨"Weekly", "weekly"⟩, mid := ⟨"Daily", "daily"⟩
    lower := ⟨"4-Hour", "4hour"⟩
    holdTime := "2-10 Days", tradesPerWeek := "1-3"
    riskPerTrade := 2, riskConsolidation := 1
    icon := "📈"
    description := "Multi-day position holds. 1-3 trades per week. Hold time: 2-10 days." }

/-- The `position` entry of `TIMEFRAME_CONFIGS`. -/
def positionConfig : TimeframeConfig :=
  { id := "position", label := "Position Trader"
    higher := ⟨"Monthly", "monthly"⟩, mid := ⟨"Weekly", "weekly"⟩
    lower := ⟨"Daily", "daily"⟩
    holdTime := "Weeks to Months", tradesPerWeek := "0.25-1"
    riskPerTrade := 2, riskConsolidation := 1
    icon := "🎯"
    description := "Long-term trend following. Few trades per month. Hold time: weeks to months." }

/-- `TIMEFRAME_CONFIGS` as a key lookup (JS property access returns
`undefined`, modelled as `none`, for any other key). -/
def TIMEFRAME_CONFIGS (styleId : String) : Option TimeframeConfig :=
  if styleId = "day" then some dayConfig
  else if styleId = "swing" then some swingConfig
  else if styleId = "position" then some positionConfig
  else none

/-- `getTimeframeConfig(styleId)`: `TIMEFRAME_CONFIGS[styleId] || TIMEFRAME_CONFIGS.swing`.
A `styleId` of `none` models passing `undefined`/`null` (whose property
lookup also yields `undefined`, hence the swing default). -/
def getTimeframeConfig (styleId : Option String) : TimeframeConfig :=
  (styleId.bind TIMEFRAME_CONFIGS).getD swingConfig

/-- `calculateRiskPercent(styleId, isConsolidating)` from TimeframeConfig.js. -/
def calculateRiskPercent (styleId : Option String) (isConsolidating : Bool) : ℚ :=
  let config := getTimeframeConfig styleId
  if isConsolidating then config.riskConsolidation else config.riskPerTrade

/-! ## Stage validators (checklistValidation.js) -/

/-- JS number-to-string conversion restricted to the values that occur in
the risk tables (non-negative integers and half-integers), which is all
the validators ever print. -/
def jsRiskToString (q : ℚ) : String :=
  if q.den = 1 then toString q.num else toString (q - 1/2).num ++ ".5"

/-- The five higher-timeframe check booleans. -/
structure HigherTimeframeChecks where
  uptrendConfirmed : Bool
  above50EMA : Bool
  emaAlignment : Bool
  notConsolidating : Bool
  clearFromResistance : Bool
deriving DecidableEq

/-- Result record of `validateHigherTimeframe`. -/
structure HigherValidation where
  isPassed : Bool
  consolidationDetected : Bool
  positionAdjustment : ℕ
  message : String
  passedCount : ℕ
  totalChecks : ℕ
  recommendedRisk : ℚ
deriving DecidableEq

/-- The consolidation warning messages keyed by timeframe code (the object
literal inside `validateHigherTimeframe`). -/
def consolidationMessages (reducedRisk : ℚ) (tfCode : String) : Option String :=
  if tfCode = "daily" then
    some ("Daily chart consolidating - reduce to " ++ jsRiskToString reducedRisk ++ "% risk")
  else if tfCode = "weekly" then
    some ("Weekly consolidation detected - reduce to " ++ jsRiskToString reducedRisk ++ "% risk")
  else if tfCode = "monthly" then
    some ("Monthly consolidation - reduce to " ++ jsRiskToString reducedRisk ++ "% risk")
  else none

/-- `validateHigherTimeframe(checks, timeframeName, styleId)` from
checklistValidation.js. -/
def validateHigherTimeframe (checks : HigherTimeframeChecks)
    (timeframeName : String := "Weekly") (styleId : Option String := some "swing") :
    HigherValidation :=
  let checkedItems := [checks.uptrendConfirmed, checks.above50EMA,
    checks.emaAlignment, checks.notConsolidating, checks.clearFromResistance]
  let passedCount := (checkedItems.filter (fun b => b)).length
  let isPassed := decide (passedCount = 5)
  let consolidationDetected := !checks.notConsolidating
  let fullRisk := calculateRiskPercent styleId false
  let reducedRisk := calculateRiskPercent styleId true
  let adjMsg : ℕ × String :=
    if !isPassed then
      (0, timeframeName ++ " checks incomplete (" ++ toString passedCount ++
        "/5). Complete all checks to proceed.")
    else if consolidationDetected then
      let tfCode := timeframeName.toLower
      (50, (consolidationMessages reducedRisk tfCode).getD
        (timeframeName ++ " consolidation detected - Recommend 50% position size"))
    else
      (100, "✓ " ++ timeframeName ++ " context validated - Full position approved (" ++
        jsRiskToString fullRisk ++ "% risk)")
  { isPassed := isPassed
    consolidationDetected := consolidationDetected
    positionAdjustment := adjMsg.1
    message := adjMsg.2
    passedCount := passedCount
    totalChecks := 5
    recommendedRisk := if consolidationDetected then reducedRisk else fullRisk }

/-- The six mid-timeframe check booleans. -/
structure MidTimeframeChecks where
  breakoutOrPullback : Bool
  aboveEMA : Bool
  volumeConfirmation : Bool
  gapAcceptable : Bool
  cleanHigherLow : Bool
  rrAtLeast2to1 : Bool
deriving DecidableEq

/-- Result record of `validateMidTimeframe`. -/
structure MidValidation where
  isPassed : Bool
  missingChecks : List String
  passedCount : ℕ
  totalChecks : ℕ
  message : String
deriving DecidableEq

/-- `validateMidTimeframe(checks, timeframeName, lowerTimeframeName)` from
checklistValidation.js. -/
def validateMidTimeframe (checks : MidTimeframeChecks)
    (timeframeName : String := "Daily") (lowerTimeframeName : String := "4-Hour") :
    MidValidation :=
  let checkedItems := [checks.breakoutOrPullback, checks.aboveEMA,
    checks.volumeConfirmation, checks.gapAcceptable, checks.cleanHigherLow,
    checks.rrAtLeast2to1]
  let passedCount := (checkedItems.filter (fun b => b)).length
  let isPassed := decide (passedCount = 6)
  let missingChecks :=
    (if checks.breakoutOrPullback then [] else ["Breakout/Pullback pattern"]) ++
    (if checks.aboveEMA then [] else ["Price above 20 EMA"]) ++
    (if checks.volumeConfirmation then [] else ["Volume confirmation"]) ++
    (if checks.gapAcceptable then [] else ["Gap validation"]) ++
    (if checks.cleanHigherLow then [] else ["Higher low structure"]) ++
    (if checks.rrAtLeast2to1 then [] else ["R:R minimum 2:1"])
  let message :=
    if !isPassed then
      timeframeName ++ " setup incomplete (" ++ toString passedCount ++
        "/6). Missing: " ++ String.intercalate ", " missingChecks
    else
      "✓ " ++ timeframeName ++ " setup confirmed - Proceed to " ++
        lowerTimeframeName ++ " checks"
  { isPassed := isPassed
    missingChecks := missingChecks
    passedCount := passedCount
    totalChecks := 6
    message := message }

/-- The six lower-timeframe check booleans. -/
structure LowerTimeframeChecks where
  stopBelowStructure : Bool
  stopDistanceOk : Bool
  notAfterExtended : Bool
  retestOrPullback : Bool
  rrStillValid : Bool
  positionSizeValid : Bool
deriving DecidableEq

/-- Result record of `validateLowerTimeframe`. -/
structure LowerValidation where
  isPassed : Bool
  readyToExecute : Bool
  missingChecks : List String
  passedCount : ℕ
  totalChecks : ℕ
  message : String
deriving DecidableEq

/-- `validateLowerTimeframe(checks, timeframeName, maxRisk)` from
checklistValidation.js (`maxRisk` is accepted and unused, as in the
source). -/
def validateLowerTimeframe (checks : LowerTimeframeChecks)
    (timeframeName : String := "4-Hour") (maxRisk : ℚ := 2) : LowerValidation :=
  let _ := maxRisk
  let checkedItems := [checks.stopBelowStructure, checks.stopDistanceOk,
    checks.notAfterExtended, checks.retestOrPullback, checks.rrStillValid,
    checks.positionSizeValid]
  let passedCount := (checkedItems.filter (fun b => b)).length
  let isPassed := decide (passedCount = 6)
  let readyToExecute := isPassed
  let missingChecks :=
    (if checks.stopBelowStructure then [] else ["Stop below structure"]) ++
    (if checks.stopDistanceOk then [] else ["Stop distance validation"]) ++
    (if checks.notAfterExtended then [] else ["Entry timing check"]) ++
    (if checks.retestOrPullback then [] else ["Retest confirmation"]) ++
    (if checks.rrStillValid then [] else ["R:R validation"]) ++
    (if checks.positionSizeValid then [] else ["Position size within limits"])
  let message :=
    if !isPassed then
      timeframeName ++ " entry checks incomplete (" ++ toString passedCount ++
        "/6). Missing: " ++ String.intercalate ", " missingChecks
    else
      "✓ Entry trigger confirmed - Ready to execute"
  { isPassed := isPassed
    readyToExecute := readyToExecute
    missingChecks := missingChecks
    passedCount := passedCount
    totalChecks := 6
    message := message }

/-! ## Recommendation aggregator (checklistValidation.js) -/

/-- Result record of `calculatePositionRecommendation`. -/
structure Recommendation where
  recommendation : ℕ
  status : String
  reason : String
  color : String
deriving DecidableEq

/-- `calculatePositionRecommendation(higherValidation, midValidation,
lowerValidation, higherTFName, midTFName, lowerTFName)` from
checklistValidation.js. -/
def calculatePositionRecommendation (higherValidation : HigherValidation)
    (midValidation : MidValidation) (lowerValidation : LowerValidation)
    (higherTFName : String := "Weekly") (midTFName : String := "Daily")
    (lowerTFName : String := "4-Hour") : Recommendation :=
  if !higherValidation.isPassed then
    { recommendation := 0, status := "NO TRADE"
      reason := higherTFName ++ " timeframe not aligned", color := "error" }
  else if !midValidation.isPassed then
    { recommendation := 0, status := "WAIT"
      reason := midTFName ++ " setup not ready", color := "warning" }
  else if !lowerValidation.isPassed then
    { recommendation := 0, status := "NO ENTRY"
      reason := lowerTFName ++ " entry not triggered", color := "warning" }
  else if higherValidation.consolidationDetected then
    { recommendation := 50, status := "HALF SIZE"
      reason := higherTFName ++ " consolidation - reduced position", color := "warning" }
  else
    { recommendation := 100, status := "FULL SIZE"
      reason := "All timeframes aligned", color := "success" }

/-! ## Checklist reducer (checklistReducer.js) -/

/-- The mid-timeframe price fields. -/
structure Prices where
  entry : String
  stop : String
  target : String
deriving DecidableEq

/-- The lower-timeframe position-size input fields. -/
structure PositionData where
  accountSize : String
  riskPercent : String
  entry : String
  stop : String
deriving DecidableEq

/-- Higher-timeframe slice of the reducer state. -/
structure HigherTFState where
  uptrendConfirmed : Bool
  above50EMA : Bool
  emaAlignment : Bool
  notConsolidating : Bool
  clearFromResistance : Bool
  isComplete : Bool
  isPassed : Bool
deriving DecidableEq

/-- Mid-timeframe slice of the reducer state. -/
structure MidTFState where
  breakoutOrPullback : Bool
  aboveEMA : Bool
  volumeConfirmation : Bool
  gapAcceptable : Bool
  cleanHigherLow : Bool
  rrAtLeast2to1 : Bool
  patternType : String
  gapPercentage : String
  prices : Prices
  isComplete : Bool
  isPassed : Bool
deriving DecidableEq

/-- Lower-timeframe slice of the reducer state. -/
structure LowerTFState where
  stopBelowStructure : Bool
  stopDistanceOk : Bool
  notAfterExtended : Bool
  retestOrPullback : Bool
  rrStillValid : Bool
  positionSizeValid : Bool
  positionData : PositionData
  isComplete : Bool
  isPassed : Bool
deriving DecidableEq

/-- The `currentStep` values used across the checklist components. -/
inductive Step where
  | styleSelection
  | higher
  | mid
  | lower
  | final
deriving DecidableEq

/-- The JS string stored in `currentStep` for each step. -/
def stepToString : Step → String
  | .styleSelection => "styleSelection"
  | .higher => "higher"
  | .mid => "mid"
  | .lower => "lower"
  | .final => "final"

/-- The reducer-owned checklist state (`createInitialChecklistState`
shape).  The final decision payload is treated abstractly as an optional
string. -/
structure ChecklistState where
  currentStep : Step
  higherTF : HigherTFState
  midTF : MidTFState
  lowerTF : LowerTFState
  consolidationDetected : Bool
  positionSizeRecommendation : ℕ
  finalDecision : Option String
deriving DecidableEq

/-- `createEmptyTimeframeState()` from checklistReducer.js. -/
def createEmptyTimeframeState : HigherTFState :=
  { uptrendConfirmed := false, above50EMA := false, emaAlignment := false
    notConsolidating := false, clearFromResistance := false
    isComplete := false, isPassed := false }

/-- `createEmptyMidTimeframeState()` from checklistReducer.js. -/
def createEmptyMidTimeframeState : MidTFState :=
  { breakoutOrPullback := false, aboveEMA := false, volumeConfirmation := false
    gapAcceptable := false, cleanHigherLow := false, rrAtLeast2to1 := false
    patternType := "breakout", gapPercentage := ""
    prices := ⟨"", "", ""⟩, isComplete := false, isPassed := false }

/-- `createEmptyLowerTimeframeState()` from checklistReducer.js. -/
def createEmptyLowerTimeframeState : LowerTFState :=
  { stopBelowStructure := false, stopDistanceOk := false, notAfterExtended := false
    retestOrPullback := false, rrStillValid := false, positionSizeValid := false
    positionData := ⟨"", "", "", ""⟩, isComplete := false, isPassed := false }

/-- `createInitialChecklistState()` from checklistReducer.js. -/
def createInitialChecklistState : ChecklistState :=
  { currentStep := .higher
    higherTF := createEmptyTimeframeState
    midTF := createEmptyMidTimeframeState
    lowerTF := createEmptyLowerTimeframeState
    consolidationDetected := false
    positionSizeRecommendation := 100
    finalDecision := none }

/-- The `checkId` keys the components dispatch for the higher timeframe. -/
inductive HigherCheckId where
  | uptrendConfirmed | above50EMA | emaAlignment | notConsolidating | clearFromResistance
deriving DecidableEq

/-- The `checkId` keys the components dispatch for the mid timeframe. -/
inductive MidCheckId where
  | breakoutOrPullback | aboveEMA | volumeConfirmation | gapAcceptable | cleanHigherLow | rrAtLeast2to1
deriving DecidableEq

/-- The `checkId` keys the components dispatch for the lower timeframe. -/
inductive LowerCheckId where
  | stopBelowStructure | stopDistanceOk | notAfterExtended | retestOrPullback | rrStillValid | positionSizeValid
deriving DecidableEq

/-- The mid-timeframe price field names. -/
inductive PriceField where
  | entry | stop | target
deriving DecidableEq

/-- The lower-timeframe position-data field names. -/
inductive PositionField where
  | accountSize | riskPercent | entry | stop
deriving DecidableEq

/-- Dynamic property read `state.higherTF[checkId]`. -/
def HigherTFState.getCheck (s : HigherTFState) : HigherCheckId → Bool
  | .uptrendConfirmed => s.uptrendConfirmed
  | .above50EMA => s.above50EMA
  | .emaAlignment => s.emaAlignment
  | .notConsolidating => s.notConsolidating
  | .clearFromResistance => s.clearFromResistance

/-- Dynamic property write `{ ...state.higherTF, [checkId]: v }`. -/
def HigherTFState.setCheck (s : HigherTFState) : HigherCheckId → Bool → HigherTFState
  | .uptrendConfirmed, v => { s with uptrendConfirmed := v }
  | .above50EMA, v => { s with above50EMA := v }
  | .emaAlignment, v => { s with emaAlignment := v }
  | .notConsolidating, v => { s with notConsolidating := v }
  | .clearFromResistance, v => { s with clearFromResistance := v }

/-- Dynamic property read `state.midTF[checkId]`. -/
def MidTFState.getCheck (s : MidTFState) : MidCheckId → Bool
  | .breakoutOrPullback => s.breakoutOrPullback
  | .aboveEMA => s.aboveEMA
  | .volumeConfirmation => s.volumeConfirmation
  | .gapAcceptable => s.gapAcceptable
  | .cleanHigherLow => s.cleanHigherLow
  | .rrAtLeast2to1 => s.rrAtLeast2to1

/-- Dynamic property write `{ ...state.midTF, [checkId]: v }`. -/
def MidTFState.setCheck (s : MidTFState) : MidCheckId → Bool → MidTFState
  | .breakoutOrPullback, v => { s with breakoutOrPullback := v }
  | .aboveEMA, v => { s with aboveEMA := v }
  | .volumeConfirmation, v => { s with volumeConfirmation := v }
  | .gapAcceptable, v => { s with gapAcceptable := v }
  | .cleanHigherLow, v => { s with cleanHigherLow := v }
  | .rrAtLeast2to1, v => { s with rrAtLeast2to1 := v }

/-- Dynamic property read `state.lowerTF[checkId]`. -/
def LowerTFState.getCheck (s : LowerTFState) : LowerCheckId → Bool
  | .stopBelowStructure => s.stopBelowStructure
  | .stopDistanceOk => s.stopDistanceOk
  | .notAfterExtended => s.notAfterExtended
  | .retestOrPullback => s.retestOrPullback
  | .rrStillValid => s.rrStillValid
  | .positionSizeValid => s.positionSizeValid

/-- Dynamic property write `{ ...state.lowerTF, [checkId]: v }`. -/
def LowerTFState.setCheck (s : LowerTFState) : LowerCheckId → Bool → LowerTFState
  | .stopBelowStructure, v => { s with stopBelowStructure := v }
  | .stopDistanceOk, v => { s with stopDistanceOk := v }
  | .notAfterExtended, v => { s with notAfterExtended := v }
  | .retestOrPullback, v => { s with retestOrPullback := v }
  | .rrStillValid, v => { s with rrStillValid := v }
  | .positionSizeValid, v => { s with positionSizeValid := v }

/-- Dynamic property write `{ ...prices, [field]: v }`. -/
def Prices.setField (p : Prices) : PriceField → String → Prices
  | .entry, v => { p with entry := v }
  | .stop, v => { p with stop := v }
  | .target, v => { p with target := v }

/-- Dynamic property write `{ ...positionData, [field]: v }`. -/
def PositionData.setField (p : PositionData) : PositionField → String → PositionData
  | .accountSize, v => { p with accountSize := v }
  | .riskPercent, v => { p with riskPercent := v }
  | .entry, v => { p with entry := v }
  | .stop, v => { p with stop := v }

/-- The `CHECKLIST_ACTIONS` dispatched through the reducer, with their
payloads.  `unknownAction` models any unrecognized `action.type` string
hitting the reducer's `default` branch. -/
inductive ChecklistAction where
  | toggleHigherCheck (checkId : HigherCheckId)
  | updateHigherValidation (payload : HigherValidation)
  | toggleMidCheck (checkId : MidCheckId)
  | updateMidCheck (checkId : MidCheckId) (value : Bool)
  | setPatternType (patternType : String)
  | setGapPercentage (value : String)
  | updateMidPrice (field : PriceField) (value : String)
  | updateMidValidation (payload : MidValidation)
  | toggleLowerCheck (checkId : LowerCheckId)
  | updateLowerCheck (checkId : LowerCheckId) (value : Bool)
  | updatePositionData (field : PositionField) (value : String)
  | updateLowerValidation (payload : LowerValidation)
  | proceedToMid
  | proceedToLower
  | proceedToFinal
  | backToHigher
  | backToMid
  | setFinalDecision (decision : Option String)
  | resetChecklist
  | resetToStyleSelection
  | restoreState (state : ChecklistState)
  | unknownAction (t : String)

/-- `checklistReducer(state, action)` from checklistReducer.js. -/
def checklistReducer (state : ChecklistState) : ChecklistAction → ChecklistState
  | .toggleHigherCheck id =>
    { state with higherTF := state.higherTF.setCheck id (!(state.higherTF.getCheck id)) }
  | .updateHigherValidation p =>
    { state with
      higherTF := { state.higherTF with isComplete := p.isPassed, isPassed := p.isPassed }
      consolidationDetected := p.consolidationDetected
      positionSizeRecommendation := p.positionAdjustment }
  | .toggleMidCheck id =>
    { state with midTF := state.midTF.setCheck id (!(state.midTF.getCheck id)) }
  | .updateMidCheck id v =>
    { state with midTF := state.midTF.setCheck id v }
  | .setPatternType t =>
    { state with midTF := { state.midTF with patternType := t } }
  | .setGapPercentage v =>
    { state with midTF := { state.midTF with gapPercentage := v } }
  | .updateMidPrice f v =>
    { state with midTF := { state.midTF with prices := state.midTF.prices.setField f v } }
  | .updateMidValidation p =>
    { state with midTF := { state.midTF with isComplete := p.isPassed, isPassed := p.isPassed } }
  | .toggleLowerCheck id =>
    { state with lowerTF := state.lowerTF.setCheck id (!(state.lowerTF.getCheck id)) }
  | .updateLowerCheck id v =>
    { state with lowerTF := state.lowerTF.setCheck id v }
  | .updatePositionData f v =>
    { state with lowerTF := { state.lowerTF with positionData := state.lowerTF.positionData.setField f v } }
  | .updateLowerValidation p =>
    { state with lowerTF := { state.lowerTF with isComplete := p.isPassed, isPassed := p.isPassed } }
  | .proceedToMid => { state with currentStep := .mid }
  | .proceedToLower => { state with currentStep := .lower }
  | .proceedToFinal => { state with currentStep := .final }
  | .backToHigher => { state with currentStep := .higher }
  | .backToMid => { state with currentStep := .mid }
  | .setFinalDecision d => { state with finalDecision := d }
  | .resetChecklist => createInitialChecklistState
  | .resetToStyleSelection => { createInitialChecklistState with currentStep := .styleSelection }
  | .restoreState s => s
  | .unknownAction _ => state

/-! ## Session state of the refactored hook (useChecklistState) -/

/-- The timeframe-code record kept in the hook's `timeframeConfig` state. -/
structure TimeframeCodes where
  higher : String
  mid : String
  lower : String
deriving DecidableEq

/-- The hook's three separated state domains: `tradingStyle` and
`timeframeConfig` live in their own `useState` slots, the checklist state
in the reducer. -/
structure SessionState where
  tradingStyle : Option String
  timeframeConfig : Option TimeframeCodes
  checklist : ChecklistState
deriving DecidableEq

/-- The React-state effect of the hook's `resetChecklist` handler
(`useChecklistState`): it dispatches `RESET_CHECKLIST` through
`checklistReducer`; the `tradingStyle` and `timeframeConfig` setters are
not called, so those domains are untouched.  (The handler's storage side
effects are modelled separately by the persistence adapter.) -/
def sessionResetChecklist (s : SessionState) : SessionState :=
  { s with checklist := checklistReducer s.checklist .resetChecklist }

/-! ## Persistence adapter (checklistStorage.js)

The storage key only ever holds one checklist entry, so `localStorage` is
modelled as an `Option` of the stored record; the JSON serialize/parse
round trip on these plain records is faithful, so the record itself is
stored.  Whether a `localStorage.setItem` call throws is environmental
(depends on the browser quota), so each write takes a `WriteOutcome`
oracle describing it. -/

/-- The saveable aggregate checklist state: the flat shape the legacy
`MTFChecklist` component holds in `useState` and passes to
`saveChecklistState` (tradingStyle and timeframeConfig are `null` until a
style is chosen). -/
structure FullChecklistState where
  tradingStyle : Option String
  timeframeConfig : Option TimeframeCodes
  currentStep : Step
  higherTF : HigherTFState
  midTF : MidTFState
  lowerTF : LowerTFState
  consolidationDetected : Bool
  positionSizeRecommendation : ℕ
  finalDecision : Option String
deriving DecidableEq

/-- The record serialized under `STORAGE_KEY`:
`{ state, timestamp, version }` (timestamp in epoch milliseconds). -/
structure StoredData where
  state : FullChecklistState
  timestamp : ℕ
  version : String
deriving DecidableEq

/-- Outcome of one `localStorage.setItem` call. -/
inductive WriteOutcome where
  | success
  | quotaExceeded
  | otherError
deriving DecidableEq

/-- ECMAScript block scoping around the quota-exceeded retry in
`saveChecklistState`: `dataToStore` is declared with `const` inside the
`try` block, so the scope chain visible from the `catch` block holds only
the function parameter and the catch parameter — not `dataToStore`. -/
def saveCatchScopeChain : List String := ["state", "error"]

/-- Identifier lookup along a scope chain; `none` means the reference
throws a `ReferenceError`. -/
def lookupVar (scope : List String) (x : String) : Option Unit :=
  if x ∈ scope then some () else none

/-- `EXPIRATION_HOURS * 60 * 60 * 1000` in milliseconds. -/
def expirationMs : ℕ := 24 * 60 * 60 * 1000

/-- `saveChecklistState(state)` from checklistStorage.js, at time `now`
over store contents `store`; `firstWrite`/`retryWrite` are the outcomes
the storage environment would give the two possible `setItem` calls.
Returns the JS return value and the resulting store contents.

On `QuotaExceededError` the source clears the old entry and then attempts
`localStorage.setItem(STORAGE_KEY, JSON.stringify(dataToStore))` — but
`dataToStore` is not visible from the catch block (see
`saveCatchScopeChain`), so that statement throws a `ReferenceError`,
which the inner catch absorbs (alerting the user) before returning
`false`.  The retry write therefore never happens. -/
def saveChecklistState (state : FullChecklistState) (now : ℕ)
    (store : Option StoredData) (firstWrite retryWrite : WriteOutcome) :
    Bool × Option StoredData :=
  let dataToStore : StoredData := { state := state, timestamp := now, version := "1.0" }
  match firstWrite with
  | .success => (true, some dataToStore)
  | .quotaExceeded =>
    -- clearChecklistState(); then the retry statement is evaluated in the
    -- catch block's scope:
    match lookupVar saveCatchScopeChain "dataToStore" with
    | none => (false, none)  -- ReferenceError, caught by the inner catch
    | some _ =>
      match retryWrite with
      | .success => (true, some dataToStore)
      | _ => (false, none)
  | .otherError => (false, store)

/-- Modelled from the spec: the documented behaviour of
`saveChecklistState` ("on quota-exceeded, clears prior storage and retries
once; on repeated failure, reports an error to the caller but does not
crash"), i.e. the same function without the scoping slip.  Used only to
exhibit the divergence of the source from its documented intent. -/
def saveChecklistStateAsDocumented (state : FullChecklistState) (now : ℕ)
    (store : Option StoredData) (firstWrite retryWrite : WriteOutcome) :
    Bool × Option StoredData :=
  let dataToStore : StoredData := { state := state, timestamp := now, version := "1.0" }
  match firstWrite with
  | .success => (true, some dataToStore)
  | .quotaExceeded =>
    match retryWrite with
    | .success => (true, some dataToStore)
    | _ => (false, none)
  | .otherError => (false, store)

/-- JS truthiness of a string. -/
def jsTruthyString (s : String) : Bool := !s.isEmpty

/-- `validateStateStructure(state)` from checklistStorage.js: requires
`state.tradingStyle` and `state.currentStep` truthy and the three
timeframe records present.  In this typed model the record fields
`higherTF`/`midTF`/`lowerTF` are always-present objects (hence truthy),
and `currentStep` is one of the five non-empty step strings. -/
def validateStateStructure (state : FullChecklistState) : Bool :=
  (match state.tradingStyle with
   | none => false
   | some sty => jsTruthyString sty)
  && jsTruthyString (stepToString state.currentStep)
  && true && true && true

/-- `loadChecklistState()` from checklistStorage.js at time `now`.
Returns the JS return value and the resulting store contents (the
function clears the entry when it is structurally invalid or expired).
A stored `timestamp` of `0` is falsy in JS, so the
`!data.state || !data.timestamp` guard treats it as invalid data. -/
def loadChecklistState (now : ℕ) (store : Option StoredData) :
    Option FullChecklistState × Option StoredData :=
  match store with
  | none => (none, none)
  | some data =>
    if data.timestamp = 0 then (none, none)
    else if (now : ℤ) - (data.timestamp : ℤ) > (expirationMs : ℤ) then (none, none)
    else if validateStateStructure data.state then (some data.state, some data)
    else (none, none)

/-! ## Position-size calculator (tradingCalculators.ts) -/

/-- Insert thousands separators the way `Number.prototype.toLocaleString`
renders a natural number in the source's locale, processing the reversed
digit list and counting digits since the last separator. -/
def commaGroup : List Char → ℕ → List Char
  | [], _ => []
  | c :: cs, k =>
    if k = 3 then ',' :: c :: commaGroup cs 1
    else c :: commaGroup cs (k + 1)

/-- `n.toLocaleString()` for a natural number. -/
def toLocaleStringUS (n : ℕ) : String :=
  String.mk ((commaGroup (toString n).toList.reverse 0).reverse)

/-- `x.toFixed(2)`: round to the nearest hundredth, ties toward the
larger value, and print with exactly two decimals. -/
def toFixed2 (q : ℚ) : String :=
  let n : ℤ := Int.floor (q * 100 + 1/2)
  let sign := if n < 0 then "-" else ""
  let m := n.natAbs
  sign ++ toString (m / 100) ++ "." ++
    (if m % 100 < 10 then "0" else "") ++ toString (m % 100)

/-- The four inputs of `calculatePositionSize`.  The source applies
`parseFloat(String(x))` to each; for inputs that are already JS numbers
(as in the claims) this is the identity, so inputs are modelled as
`JSNum` directly. -/
structure PositionSizeInputs where
  accountSize : JSNum
  riskPercent : JSNum
  entryPrice : JSNum
  stopLoss : JSNum
deriving DecidableEq

/-- The discriminated result of `calculatePositionSize`: either the data
record or `{ success: false, error, field }`. -/
inductive PSResult where
  | ok (shares : ℕ) (positionValue riskAmount riskPerShare percentOfAccount : String)
  | failure (error : String) (field : String)
deriving DecidableEq

/-- The `field` tag of a `calculatePositionSize` result (`none` on
success). -/
def PSResult.fieldTag : PSResult → Option String
  | .ok _ _ _ _ _ => none
  | .failure _ f => some f

/-- `calculatePositionSize({accountSize, riskPercent, entryPrice,
stopLoss})` from tradingCalculators.ts, steps 1-11 in source order. -/
def calculatePositionSize (i : PositionSizeInputs) : PSResult :=
  if i.accountSize.isNaN || i.riskPercent.isNaN || i.entryPrice.isNaN || i.stopLoss.isNaN then
    .failure "All fields must contain valid numbers" "all"
  else if !i.accountSize.isFinite || !i.riskPercent.isFinite ||
      !i.entryPrice.isFinite || !i.stopLoss.isFinite then
    .failure "Values must be finite numbers" "all"
  else
    let account := i.accountSize.toRat
    let riskPct := i.riskPercent.toRat
    let entry := i.entryPrice.toRat
    let stop := i.stopLoss.toRat
    if account ≤ 0 then
      .failure "Account size must be greater than zero" "accountSize"
    else if account > 100000000 then
      .failure ("Account size must be below $" ++ toLocaleStringUS 100000000) "accountSize"
    else if riskPct ≤ 0 || riskPct > 100 then
      .failure "Risk percent must be between 0 and 100" "riskPercent"
    else if entry ≤ 0 || stop ≤ 0 then
      .failure "Entry price and stop loss must be greater than zero"
        (if entry ≤ 0 then "entryPrice" else "stopLoss")
    else if entry > 1000000 || stop > 1000000 then
      .failure ("Prices must be below $" ++ toLocaleStringUS 1000000) "all"
    else if entry ≤ stop then
      .failure "Entry price must be greater than stop loss (long position)" "relationship"
    else
      let risk := riskPct / 100
      let riskAmount := account * risk
      let riskPerShare := |entry - stop|
      if riskPerShare = 0 then
        .failure "Stop loss cannot equal entry price" "stopLoss"
      else
        let shares := (Int.floor (riskAmount / riskPerShare)).toNat
        let positionValue := (shares : ℚ) * entry
        if shares = 0 then
          .failure "Risk amount too small to buy any shares. Increase account size or risk percent." "calculation"
        else if positionValue > account then
          .failure "Position value exceeds account size. Check your inputs." "calculation"
        else
          .ok shares (toFixed2 positionValue) (toFixed2 riskAmount)
            (toFixed2 riskPerShare) (toFixed2 (positionValue / account * 100))

/-! ## Concrete states used by witnesses and counterexamples -/

/-- The default aggregate state of the legacy `MTFChecklist` component
before a style is chosen (`getInitialState`): no trading style, step
`styleSelection`, all checks empty. -/
def noStyleState : FullChecklistState :=
  { tradingStyle := none, timeframeConfig := none
    currentStep := .styleSelection
    higherTF := createEmptyTimeframeState
    midTF := createEmptyMidTimeframeState
    lowerTF := createEmptyLowerTimeframeState
    consolidationDetected := false
    positionSizeRecommendation := 100
    finalDecision := none }

/-- A live aggregate snapshot for the swing style
(`createInitialStateForStyle("swing")`). -/
def swingSnapshot : FullChecklistState :=
  { tradingStyle := some "swing"
    timeframeConfig := some ⟨"weekly", "daily", "4hour"⟩
    currentStep := .higher
    higherTF := createEmptyTimeframeState
    midTF := createEmptyMidTimeframeState
    lowerTF := createEmptyLowerTimeframeState
    consolidationDetected := false
    positionSizeRecommendation := 100
    finalDecision := none }

/-! ## Claim theorems -/

/- Batteries marks the `Rat` arithmetic operations `@[irreducible]`, which
blocks `decide` from evaluating concrete rational arithmetic; restore
default reducibility for the proofs below. -/
attribute [local semireducible] Rat.add Rat.mul Rat.inv Rat.sub Rat.ofScientific

/-- Claim C1: `calculatePositionRecommendation` evaluates its three stage
results in strict short-circuit order.  When the higher result fails, the
`NO TRADE` record is returned for every mid and lower result (those
arguments are quantified, so the output provably does not depend on
them); otherwise the `WAIT`, `NO ENTRY`, `HALF SIZE` and `FULL SIZE`
records follow in precedence order. -/
theorem calculatePositionRecommendation_precedence :
    ∀ (h : HigherValidation) (m : MidValidation) (l : LowerValidation)
      (hn mn ln : String),
      (h.isPassed = false →
        calculatePositionRecommendation h m l hn mn ln =
          ⟨0, "NO TRADE", hn ++ " timeframe not aligned", "error"⟩) ∧
      (h.isPassed = true → m.isPassed = false →
        calculatePositionRecommendation h m l hn mn ln =
          ⟨0, "WAIT", mn ++ " setup not ready", "warning"⟩) ∧
      (h.isPassed = true → m.isPassed = true → l.isPassed = false →
        calculatePositionRecommendation h m l hn mn ln =
          ⟨0, "NO ENTRY", ln ++ " entry not triggered", "warning"⟩) ∧
      (h.isPassed = true → m.isPassed = true → l.isPassed = true →
        h.consolidationDetected = true →
        calculatePositionRecommendation h m l hn mn ln =
          ⟨50, "HALF SIZE", hn ++ " consolidation - reduced position", "warning"⟩) ∧
      (h.isPassed = true → m.isPassed = true → l.isPassed = true →
        h.consolidationDetected = false →
        calculatePositionRecommendation h m l hn mn ln =
          ⟨100, "FULL SIZE", "All timeframes aligned", "success"⟩) := by
  intro h m l hn mn ln
  refine ⟨?_, ?_, ?_, ?_, ?_⟩
  · intro hh; simp [calculatePositionRecommendation, hh]
  · intro hh hm; simp [calculatePositionRecommendation, hh, hm]
  · intro hh hm hl; simp [calculatePositionRecommendation, hh, hm, hl]
  · intro hh hm hl hc; simp [calculatePositionRecommendation, hh, hm, hl, hc]
  · intro hh hm hl hc; simp [calculatePositionRecommendation, hh, hm, hl, hc]

/-- Witness for C1: every branch of the precedence theorem instantiated
at concrete validation results. -/
theorem calculatePositionRecommendation_precedence_witness :
    calculatePositionRecommendation ⟨false, false, 0, "", 4, 5, 2⟩
      ⟨true, [], 6, 6, ""⟩ ⟨true, true, [], 6, 6, ""⟩ "Weekly" "Daily" "4-Hour" =
      ⟨0, "NO TRADE", "Weekly timeframe not aligned", "error"⟩ ∧
    calculatePositionRecommendation ⟨true, false, 100, "", 5, 5, 2⟩
      ⟨false, [], 5, 6, ""⟩ ⟨true, true, [], 6, 6, ""⟩ "Weekly" "Daily" "4-Hour" =
      ⟨0, "WAIT", "Daily setup not ready", "warning"⟩ ∧
    calculatePositionRecommendation ⟨true, false, 100, "", 5, 5, 2⟩
      ⟨true, [], 6, 6, ""⟩ ⟨false, false, [], 5, 6, ""⟩ "Weekly" "Daily" "4-Hour" =
      ⟨0, "NO ENTRY", "4-Hour entry not triggered", "warning"⟩ ∧
    calculatePositionRecommendation ⟨true, true, 50, "", 5, 5, 1⟩
      ⟨true, [], 6, 6, ""⟩ ⟨true, true, [], 6, 6, ""⟩ "Weekly" "Daily" "4-Hour" =
      ⟨50, "HALF SIZE", "Weekly consolidation - reduced position", "warning"⟩ ∧
    calculatePositionRecommendation ⟨true, false, 100, "", 5, 5, 2⟩
      ⟨true, [], 6, 6, ""⟩ ⟨true, true, [], 6, 6, ""⟩ "Weekly" "Daily" "4-Hour" =
      ⟨100, "FULL SIZE", "All timeframes aligned", "success"⟩ := by
  refine ⟨?_, ?_, ?_, ?_, ?_⟩
  · exact (calculatePositionRecommendation_precedence ⟨false, false, 0, "", 4, 5, 2⟩
      ⟨true, [], 6, 6, ""⟩ ⟨true, true, [], 6, 6, ""⟩ "Weekly" "Daily" "4-Hour").1 rfl
  · exact (calculatePositionRecommendation_precedence ⟨true, false, 100, "", 5, 5, 2⟩
      ⟨false, [], 5, 6, ""⟩ ⟨true, true, [], 6, 6, ""⟩ "Weekly" "Daily" "4-Hour").2.1 rfl rfl
  · exact (calculatePositionRecommendation_precedence ⟨true, false, 100, "", 5, 5, 2⟩
      ⟨true, [], 6, 6, ""⟩ ⟨false, false, [], 5, 6, ""⟩ "Weekly" "Daily" "4-Hour").2.2.1 rfl rfl rfl
  · exact (calculatePositionRecommendation_precedence ⟨true, true, 50, "", 5, 5, 1⟩
      ⟨true, [], 6, 6, ""⟩ ⟨true, true, [], 6, 6, ""⟩ "Weekly" "Daily" "4-Hour").2.2.2.1 rfl rfl rfl rfl
  · exact (calculatePositionRecommendation_precedence ⟨true, false, 100, "", 5, 5, 2⟩
      ⟨true, [], 6, 6, ""⟩ ⟨true, true, [], 6, 6, ""⟩ "Weekly" "Daily" "4-Hour").2.2.2.2 rfl rfl rfl rfl

/-- Claim C2: for every combination of the five higher-timeframe flags,
`isPassed` is exactly the conjunction of the five flags, and flipping any
single flag off from the all-true combination makes `isPassed` false. -/
theorem validateHigherTimeframe_isPassed_iff :
    (∀ (timeframeName : String) (styleId : Option String) (c : HigherTimeframeChecks),
      (validateHigherTimeframe c timeframeName styleId).isPassed =
        (c.uptrendConfirmed && c.above50EMA && c.emaAlignment &&
          c.notConsolidating && c.clearFromResistance)) ∧
    (∀ (timeframeName : String) (styleId : Option String),
      (validateHigherTimeframe ⟨false, true, true, true, true⟩ timeframeName styleId).isPassed = false ∧
      (validateHigherTimeframe ⟨true, false, true, true, true⟩ timeframeName styleId).isPassed = false ∧
      (validateHigherTimeframe ⟨true, true, false, true, true⟩ timeframeName styleId).isPassed = false ∧
      (validateHigherTimeframe ⟨true, true, true, false, true⟩ timeframeName styleId).isPassed = false ∧
      (validateHigherTimeframe ⟨true, true, true, true, false⟩ timeframeName styleId).isPassed = false) := by
  constructor
  · intro tn sid c
    rcases c with ⟨u, a, e, nc, cl⟩
    cases u <;> cases a <;> cases e <;> cases nc <;> cases cl <;> rfl
  · intro tn sid
    exact ⟨rfl, rfl, rfl, rfl, rfl⟩

/-- Claim C3: `validateHigherTimeframe` never returns `isPassed` and
`consolidationDetected` simultaneously true, and the returned
`positionAdjustment` is always 0 or 100 — the 50% branch is unreachable. -/
theorem validateHigherTimeframe_no_passed_while_consolidating :
    ∀ (timeframeName : String) (styleId : Option String) (c : HigherTimeframeChecks),
      ((validateHigherTimeframe c timeframeName styleId).isPassed &&
        (validateHigherTimeframe c timeframeName styleId).consolidationDetected) = false ∧
      ((validateHigherTimeframe c timeframeName styleId).positionAdjustment = 0 ∨
        (validateHigherTimeframe c timeframeName styleId).positionAdjustment = 100) := by
  intro tn sid c
  rcases c with ⟨u, a, e, nc, cl⟩
  cases u <;> cases a <;> cases e <;> cases nc <;> cases cl <;>
    first
      | exact ⟨rfl, Or.inl rfl⟩
      | exact ⟨rfl, Or.inr rfl⟩

/-- Claim C4: the `RESET_CHECKLIST` transition (dispatched by the hook's
`resetChecklist` handler) restores the three timeframe-check records to
their empty initial values and sets `currentStep` to `higher`, while the
`tradingStyle` and `timeframeConfig` state domains — which live outside
the reducer and are not written by the handler — keep their input values. -/
theorem resetChecklist_resets_checks_and_preserves_style :
    ∀ s : SessionState,
      (sessionResetChecklist s).checklist.higherTF = createEmptyTimeframeState ∧
      (sessionResetChecklist s).checklist.midTF = createEmptyMidTimeframeState ∧
      (sessionResetChecklist s).checklist.lowerTF = createEmptyLowerTimeframeState ∧
      (sessionResetChecklist s).checklist.currentStep = Step.higher ∧
      (sessionResetChecklist s).tradingStyle = s.tradingStyle ∧
      (sessionResetChecklist s).timeframeConfig = s.timeframeConfig := by
  intro s
  exact ⟨rfl, rfl, rfl, rfl, rfl, rfl⟩

/-- Claim C8: for every combination of the six mid-timeframe and six
lower-timeframe flags, `isPassed` is exactly the conjunction of the six
flags, and `readyToExecute` of the lower validator equals its `isPassed`. -/
theorem validateMidLowerTimeframe_isPassed_iff :
    (∀ (timeframeName lowerTimeframeName : String) (c : MidTimeframeChecks),
      (validateMidTimeframe c timeframeName lowerTimeframeName).isPassed =
        (c.breakoutOrPullback && c.aboveEMA && c.volumeConfirmation &&
          c.gapAcceptable && c.cleanHigherLow && c.rrAtLeast2to1)) ∧
    (∀ (timeframeName : String) (maxRisk : ℚ) (c : LowerTimeframeChecks),
      (validateLowerTimeframe c timeframeName maxRisk).isPassed =
        (c.stopBelowStructure && c.stopDistanceOk && c.notAfterExtended &&
          c.retestOrPullback && c.rrStillValid && c.positionSizeValid)) ∧
    (∀ (timeframeName : String) (maxRisk : ℚ) (c : LowerTimeframeChecks),
      (validateLowerTimeframe c timeframeName maxRisk).readyToExecute =
        (validateLowerTimeframe c timeframeName maxRisk).isPassed) := by
  refine ⟨?_, ?_, ?_⟩
  · intro tn ln c
    rcases c with ⟨b1, b2, b3, b4, b5, b6⟩
    cases b1 <;> cases b2 <;> cases b3 <;> cases b4 <;> cases b5 <;> cases b6 <;> rfl
  · intro tn mr c
    rcases c with ⟨b1, b2, b3, b4, b5, b6⟩
    cases b1 <;> cases b2 <;> cases b3 <;> cases b4 <;> cases b5 <;> cases b6 <;> rfl
  · intro tn mr c
    rfl

/-- Claim C10: for any style id outside day/swing/position — including
`none`, which models `undefined`/`null` — `getTimeframeConfig` falls back
to the swing configuration, so `calculateRiskPercent` is total and yields
swing's 2% (1% when consolidating). -/
theorem getTimeframeConfig_defaults_to_swing :
    ∀ styleId : Option String,
      styleId ≠ some "day" → styleId ≠ some "swing" → styleId ≠ some "position" →
      getTimeframeConfig styleId = swingConfig ∧
      calculateRiskPercent styleId false = 2 ∧
      calculateRiskPercent styleId true = 1 := by
  intro styleId h1 h2 h3
  have hcfg : getTimeframeConfig styleId = swingConfig := by
    cases styleId with
    | none => rfl
    | some k =>
      have k1 : ¬(k = "day") := fun h => h1 (by rw [h])
      have k2 : ¬(k = "swing") := fun h => h2 (by rw [h])
      have k3 : ¬(k = "position") := fun h => h3 (by rw [h])
      simp [getTimeframeConfig, TIMEFRAME_CONFIGS, k1, k2, k3]
  refine ⟨hcfg, ?_, ?_⟩
  · simp [calculateRiskPercent, hcfg, swingConfig]
  · simp [calculateRiskPercent, hcfg, swingConfig]

/-- Witness for C10: the fallback applied at the unknown style id
`"scalping"` and at `none`. -/
theorem getTimeframeConfig_defaults_to_swing_witness :
    getTimeframeConfig (some "scalping") = swingConfig ∧
    calculateRiskPercent none false = 2 ∧
    calculateRiskPercent none true = 1 := by
  refine ⟨?_, ?_, ?_⟩
  · exact (getTimeframeConfig_defaults_to_swing (some "scalping")
      (by decide) (by decide) (by decide)).1
  · exact (getTimeframeConfig_defaults_to_swing none
      (by decide) (by decide) (by decide)).2.1
  · exact (getTimeframeConfig_defaults_to_swing none
      (by decide) (by decide) (by decide)).2.2

/-- Counterexample for C5: the claim quantifies over every ChecklistState
snapshot, but the style-selection snapshot (tradingStyle `null`, the
legacy component's initial state) is saved successfully and then — well
inside the 24-hour window (one hour later) — `loadChecklistState` returns
`null` rather than the saved state, because `validateStateStructure`
rejects a falsy `tradingStyle`. -/
theorem saveLoad_roundtrip_counterexample :
    (saveChecklistState noStyleState 1000 none .success .success).1 = true ∧
    (3601000 - 1000 : ℕ) < expirationMs ∧
    (loadChecklistState 3601000
      (saveChecklistState noStyleState 1000 none .success .success).2).1 = none := by
  refine ⟨rfl, by decide, ?_⟩
  simp [saveChecklistState, loadChecklistState, validateStateStructure,
    noStyleState, expirationMs]

/-- Claim C5 (amended): for every snapshot whose structural validation
passes (`tradingStyle` present and truthy) saved at a nonzero timestamp,
a save followed by a load at most 24 hours later returns a structurally
equal state, and a load more than 24 hours later returns `null` and
removes the stored entry. -/
theorem saveChecklistState_loadChecklistState_roundtrip :
    ∀ (s : FullChecklistState) (tSave tLoad : ℕ) (store : Option StoredData),
      validateStateStructure s = true → 0 < tSave →
      saveChecklistState s tSave store .success .success =
        (true, some ⟨s, tSave, "1.0"⟩) ∧
      ((tLoad : ℤ) - (tSave : ℤ) ≤ (expirationMs : ℤ) →
        loadChecklistState tLoad (some ⟨s, tSave, "1.0"⟩) =
          (some s, some ⟨s, tSave, "1.0"⟩)) ∧
      ((expirationMs : ℤ) < (tLoad : ℤ) - (tSave : ℤ) →
        loadChecklistState tLoad (some ⟨s, tSave, "1.0"⟩) = (none, none)) := by
  intro s tSave tLoad store hv ht
  have h0 : ¬(tSave = 0) := by omega
  refine ⟨rfl, ?_, ?_⟩
  · intro hle
    have h1 : ¬((tLoad : ℤ) - (tSave : ℤ) > (expirationMs : ℤ)) := by omega
    simp [loadChecklistState, h0, h1, hv]
  · intro hgt
    have h1 : (tLoad : ℤ) - (tSave : ℤ) > (expirationMs : ℤ) := hgt
    simp [loadChecklistState, h0, h1]

/-- Witness for C5: the swing snapshot saved at t = 1000 ms round-trips
when loaded one hour later and expires when loaded some 25 hours later. -/
theorem saveChecklistState_loadChecklistState_roundtrip_witness :
    validateStateStructure swingSnapshot = true ∧
    loadChecklistState 3601000 (some ⟨swingSnapshot, 1000, "1.0"⟩) =
      (some swingSnapshot, some ⟨swingSnapshot, 1000, "1.0"⟩) ∧
    loadChecklistState 90000000 (some ⟨swingSnapshot, 1000, "1.0"⟩) =
      (none, none) := by
  refine ⟨by decide, ?_, ?_⟩
  · exact (saveChecklistState_loadChecklistState_roundtrip swingSnapshot 1000 3601000
      none (by decide) (by decide)).2.1 (by decide)
  · exact (saveChecklistState_loadChecklistState_roundtrip swingSnapshot 1000 90000000
      none (by decide) (by decide)).2.2 (by decide)

/-- Claim C6 (code bug): on a `QuotaExceededError` the source clears the
old entry but its retry statement references `dataToStore`, which is
`const`-scoped to the `try` block and invisible from the `catch` block —
so the retry throws `ReferenceError` and never reaches `setItem`.  Even
in an environment where the post-clear write would succeed, the function
returns `false` with the storage cleared, while the documented behaviour
(`saveChecklistStateAsDocumented`) retries and returns `true`. -/
theorem saveChecklistState_quota_retry_bug :
    lookupVar saveCatchScopeChain "dataToStore" = none ∧
    saveChecklistState swingSnapshot 5000 (some ⟨noStyleState, 1, "1.0"⟩)
      .quotaExceeded .success = (false, none) ∧
    saveChecklistStateAsDocumented swingSnapshot 5000 (some ⟨noStyleState, 1, "1.0"⟩)
      .quotaExceeded .success = (true, some ⟨swingSnapshot, 5000, "1.0"⟩) := by
  refine ⟨by decide, by decide, by decide⟩

/-- Counterexample for C7: at `{accountSize: 10000, riskPercent: 2,
entryPrice: 50, stopLoss: 50}` the `entry <= stop` relationship guard
fires before the division-by-zero guard, so the failure's field is
`"relationship"`, not the claimed `"stopLoss"`. -/
theorem calculatePositionSize_equal_stop_counterexample :
    calculatePositionSize ⟨.fin 10000, .fin 2, .fin 50, .fin 50⟩ =
      PSResult.failure "Entry price must be greater than stop loss (long position)"
        "relationship" ∧
    (calculatePositionSize ⟨.fin 10000, .fin 2, .fin 50, .fin 50⟩).fieldTag ≠
      some "stopLoss" := by
  refine ⟨by decide, by decide⟩

/-- Claim C7 (amended): at entry = stop the result is the relationship
failure (field `"relationship"`), the same failure produced when entry is
strictly below stop — equality is not distinguished from the other
relationship violations, and the `"stopLoss"` division-by-zero guard
behind it is not reached. -/
theorem calculatePositionSize_equal_stop_relationship :
    calculatePositionSize ⟨.fin 10000, .fin 2, .fin 50, .fin 50⟩ =
      PSResult.failure "Entry price must be greater than stop loss (long position)"
        "relationship" ∧
    calculatePositionSize ⟨.fin 10000, .fin 2, .fin 50, .fin 55⟩ =
      PSResult.failure "Entry price must be greater than stop loss (long position)"
        "relationship" ∧
    (calculatePositionSize ⟨.fin 10000, .fin 2, .fin 50, .fin 50⟩).fieldTag =
      (calculatePositionSize ⟨.fin 10000, .fin 2, .fin 50, .fin 55⟩).fieldTag := by
  refine ⟨by decide, by decide, by decide⟩

/-- Counterexample for C9: `parseFloat("Infinity")` is not finite, yet
`shouldAutoCheckRR("Infinity", 2)` returns `true` — the source only
excludes NaN, so the claimed "parses as a finite number" condition is
wrong. -/
theorem shouldAutoCheckRR_infinity_counterexample :
    shouldAutoCheckRR "Infinity" 2 = true ∧
    (parseFloat "Infinity").isFinite = false := by
  refine ⟨by decide, by decide⟩

/-- Claim C9 (amended): `shouldAutoCheckRR(ratio, min)` is true iff the
ratio parses as a non-NaN number that is `>= min` under JS comparison —
i.e. a finite value at least `min`, or `+Infinity`; in particular it is
false for non-numeric strings, for negative ratios against a positive
minimum and just below the minimum, and true at the boundary. -/
theorem shouldAutoCheckRR_iff :
    (∀ (s : String) (minRatio : ℚ),
      shouldAutoCheckRR s minRatio = true ↔
        (parseFloat s = JSNum.posInf ∨
          ∃ q : ℚ, parseFloat s = JSNum.fin q ∧ minRatio ≤ q)) ∧
    shouldAutoCheckRR "abc" 2 = false ∧
    shouldAutoCheckRR "-3" 2 = false ∧
    shouldAutoCheckRR "1.99" 2 = false ∧
    shouldAutoCheckRR "2" 2 = true := by
  refine ⟨?_, by decide, by decide, by decide, by decide⟩
  intro s minRatio
  unfold shouldAutoCheckRR
  cases hp : parseFloat s with
  | nan => simp [JSNum.isNaN, JSNum.geq]
  | posInf => simp [JSNum.isNaN, JSNum.geq]
  | negInf => simp [JSNum.isNaN, JSNum.geq]
  | fin q => simp [JSNum.isNaN, JSNum.geq]

end VqmTradingTool
